import Mathlib

/-!
Verification of the activity-recommendation microservice (server.js).

The development shallowly embeds the four logic components of the service:
the per-key daily quota tracker (`checkRateLimit`, the periodic `sweep`),
the response parser (`parseResponse`), the weather decision engine
(`getWeatherRecommendations`), the temperature converter
(`convertTemperature`, `getTemperatureDisplay`), and the orchestration of
the explore-destination endpoint (`exploreDestination`), together with
theorems about them.

JS numbers are modelled as rationals, JS strings as Lean strings
(with character-level helpers mirroring the JS string operations used by
the source), and the mutable counters map as an association list.
-/

/-- Whitespace as matched by the JS regex class and by trimming
(space, tab, newline, carriage return, vertical tab, form feed). -/
def isWs (c : Char) : Bool :=
  c = ' ' || c = '\t' || c = '\n' || c = '\r' || c = '\x0b' || c = '\x0c'

/-- Trim of a character list, as JS trim: whitespace removed at both ends. -/
def trimChars (l : List Char) : List Char :=
  ((l.dropWhile isWs).reverse.dropWhile isWs).reverse

/-- JS trim on strings. -/
def jsTrim (s : String) : String := String.mk (trimChars s.data)

/-- Predicate `matchesAt pat l`: `pat` occurs at the start of `l`. -/
def matchesAt : List Char → List Char → Bool
  | [], _ => true
  | _ :: _, [] => false
  | c :: cs, d :: ds => c = d && matchesAt cs ds

/-- Predicate `containsSub pat l`: `pat` occurs somewhere in `l` (contiguously). -/
def containsSub (pat : List Char) : List Char → Bool
  | [] => pat.isEmpty
  | c :: cs => matchesAt pat (c :: cs) || containsSub pat cs

/-- JS `s.includes(sub)`: substring containment. -/
def jsIncludes (s sub : String) : Bool := containsSub sub.data s.data

/-- JS `s.split(sep)` for a single-character separator, on character lists:
splits at every occurrence, keeping empty segments. -/
def splitCharAux (sep : Char) : List Char → List Char → List String
  | [], acc => [String.mk acc.reverse]
  | c :: cs, acc =>
    if c = sep then String.mk acc.reverse :: splitCharAux sep cs []
    else splitCharAux sep cs (c :: acc)

/-- JS `s.split('\n')`. -/
def splitLines (s : String) : List String := splitCharAux '\n' s.data []

/-- JS `s.toLowerCase()` (ASCII letters; mirrors the source, which only
matches the ASCII words rain, storm, snow case-insensitively). -/
def jsToLower (s : String) : String := String.mk (s.data.map Char.toLower)

/-! ## QuotaTracker (server.js lines 12-38)

`requestCounts` is a `Map` from string keys to counts; we model it as an
association list. `checkRateLimit` reads `req.ip` and the current day
string, forms the key, and either rejects (count at the limit, map
untouched) or increments and admits. -/

/-- The counters map of the service (`requestCounts`). -/
abbrev RLMap : Type := List (String × Nat)

/-- Lookup `requestCounts.get(key) || 0`. -/
def mapGet : RLMap → String → Nat
  | [], _ => 0
  | (k, v) :: rest, key => if k = key then v else mapGet rest key

/-- Update `requestCounts.set(key, v)`: replace the binding if present, else add. -/
def mapSet : RLMap → String → Nat → RLMap
  | [], key, v => [(key, v)]
  | (k, w) :: rest, key, v =>
    if k = key then (key, v) :: rest else (k, w) :: mapSet rest key v

/-- Constant `DAILY_LIMIT` (server.js line 14). -/
def DAILY_LIMIT : Nat := 60

/-- The key \x7bip\x7d-\x7btoday\x7d built at server.js line 19. -/
def rlKey (ip today : String) : String := ip ++ "-" ++ today

/-- Middleware `checkRateLimit` (server.js lines 16-28): returns whether the request
is admitted together with the updated counters map. A rejection leaves
the map untouched; an admission increments the count under the key. -/
def checkRateLimit (ip today : String) (m : RLMap) : Bool × RLMap :=
  let key := rlKey ip today
  let count := mapGet m key
  if DAILY_LIMIT ≤ count then (false, m)
  else (true, mapSet m key (count + 1))

/-- State after `n` successive `checkRateLimit` calls for the same
caller and day. -/
def admitIter (ip today : String) : Nat → RLMap → RLMap
  | 0, m => m
  | n + 1, m => admitIter ip today n (checkRateLimit ip today m).2

/-- Number of admissions (true results) in `n` successive
`checkRateLimit` calls for the same caller and day. -/
def admitTrues (ip today : String) : Nat → RLMap → Nat
  | 0, _ => 0
  | n + 1, m =>
    let r := checkRateLimit ip today m
    (if r.1 then 1 else 0) + admitTrues ip today n r.2

/-- The periodic sweep (server.js lines 31-38): deletes every key `k`
of the map with `!k.includes(today)`. -/
def sweep (today : String) (m : RLMap) : RLMap :=
  m.filter (fun kv => jsIncludes kv.1 today)

/-! ## ResponseParser (server.js lines 115-131)

A line qualifies when, after trimming, it matches the regex
`^[-•*]\s+` or `^\d+\.\s+`; the source then applies BOTH replaces in
sequence (`.replace(bullet, head).replace(number, head)`), keeps the
remainder only when longer than 10 characters, and finally slices the
collected tips to the first 10. -/

/-- The match of `^[-•*]\s+` on a character list: the marker character,
at least one whitespace character, then greedily all following
whitespace; returns what remains after removing the match. -/
def stripBullet : List Char → Option (List Char)
  | [] => none
  | c :: rest =>
    if c = '-' || c = '•' || c = '*' then
      match rest with
      | [] => none
      | d :: _ => if isWs d then some (rest.dropWhile isWs) else none
    else none

/-- The match of `^\d+\.\s+`: one or more digits, a dot, at least one
whitespace character (greedy); returns what remains after the match. -/
def stripNumber (l : List Char) : Option (List Char) :=
  let ds := l.takeWhile Char.isDigit
  if ds.isEmpty then none
  else
    match l.drop ds.length with
    | '.' :: rest =>
      match rest with
      | [] => none
      | d :: _ => if isWs d then some (rest.dropWhile isWs) else none
    | _ => none

/-- One loop iteration of `parseResponse` (server.js lines 119-128) on a
single line: trim, require a bullet or numbered marker, apply the bullet
replace then the number replace, keep the result when longer than 10
characters. -/
def processLine (line : String) : Option String :=
  let l := trimChars line.data
  if (stripBullet l).isSome || (stripNumber l).isSome then
    let l1 := (stripBullet l).getD l
    let l2 := (stripNumber l1).getD l1
    if 10 < l2.length then some (String.mk l2) else none
  else none

/-- Function `parseResponse` (server.js lines 115-131). -/
def parseResponse (raw : String) : List String :=
  ((splitLines raw).filterMap processLine).take 10

/-! ## WeatherAdvisor (server.js lines 134-208) -/

structure WeatherReading where
  temp : ℚ
  conditions : Option String
  windspeed : ℚ
  uvindex : ℚ

structure WeatherAdvice where
  recommendation : String
  message : String
  reason : String
  color : String
deriving DecidableEq

/-- Expression `conditions?.toLowerCase()` with the or-fallback to the
empty string (server.js line 137): an absent conditions field yields the
empty string (the fallback maps the falsy empty string to itself). -/
def lowerConditions (w : WeatherReading) : String :=
  match w.conditions with
  | none => ""
  | some c => jsToLower c

/-- Flag `isBadWeather` (server.js lines 139-141). -/
def isBadWeather (w : WeatherReading) : Bool :=
  jsIncludes (lowerConditions w) "rain" ||
  jsIncludes (lowerConditions w) "storm" ||
  jsIncludes (lowerConditions w) "snow"

/-- Function `getWeatherRecommendations` (server.js lines 134-208): the ordered
first-match-wins rule cascade. -/
def getWeatherRecommendations (w : WeatherReading) : WeatherAdvice :=
  if isBadWeather w then
    ⟨"stay-indoors", "Stay indoors", "Poor weather conditions", "#F57C00"⟩
  else if 25 < w.windspeed then
    ⟨"stay-indoors", "Stay indoors", "Very windy", "#F57C00"⟩
  else if 95 < w.temp then
    ⟨"limited-outdoor", "Limited outdoor time", "Extreme heat - stay hydrated", "#FF5722"⟩
  else if w.temp < 25 then
    ⟨"limited-outdoor", "Limited outdoor time", "Extreme cold - dress warmly", "#2196F3"⟩
  else if 70 ≤ w.temp ∧ w.temp ≤ 85 ∧ ¬8 < w.uvindex then
    ⟨"perfect-outdoor", "Perfect for outdoor activities", "Ideal conditions", "#4CAF50"⟩
  else if 60 ≤ w.temp ∧ w.temp ≤ 90 then
    ⟨"good-outdoor", "Great for outdoor activities",
      if 8 < w.uvindex then "Good weather - use sun protection" else "Good conditions",
      "#4CAF50"⟩
  else
    ⟨"moderate-outdoor", "Moderate outdoor conditions", "Fair weather", "#FF9800"⟩

/-! ## TemperatureConverter (server.js lines 211-221) -/

/-- JS `Math.round`: round to nearest, half toward positive infinity. -/
def jsRound (x : ℚ) : ℤ := ⌊x + 1 / 2⌋

/-- Function `convertTemperature` (server.js lines 211-216). -/
def convertTemperature (tempF : ℚ) (unit : String) : ℤ :=
  if unit = "C" then jsRound ((tempF - 32) * 5 / 9)
  else jsRound tempF

/-- Function `getTemperatureDisplay` (server.js lines 218-221). -/
def getTemperatureDisplay (temp : ℚ) (unit : String) : String :=
  toString (convertTemperature temp unit) ++ "°" ++ unit

/-! ## RecommendationPipeline (server.js lines 77-112 and 280-334)

The outbound HTTP call is abstracted as a `FetchResult` parameter (the
one suspension point); the credential is an `Option String`
(`process.env.OPENAI_API_KEY`, absent or set, with the empty string
falsy as in JS). -/

/-- Outcome of the outbound generative call: a success body
(`choices[0].message.content`) or a non-success response carrying
`error.error?.message`. -/
inductive FetchResult where
  | success (content : String)
  | failure (errMsg : Option String)

/-- Test `!process.env.OPENAI_API_KEY` (server.js line 78): absent or empty. -/
def keyMissing : Option String → Bool
  | none => true
  | some k => k = ""

/-- Function `getRecommendations` (server.js lines 77-112): throws on a missing
credential before the call is attempted, propagates the backend error
message (with a fixed default) on a non-success response, and returns
the content on success. -/
def getRecommendations (apiKey : Option String) (f : FetchResult) :
    Except String String :=
  if keyMissing apiKey then Except.error "OpenAI API key not configured"
  else
    match f with
    | FetchResult.success content => Except.ok content
    | FetchResult.failure msg => Except.error (msg.getD "OpenAI API error")

/-- The five fixed fallback tips (server.js lines 301-307). -/
def fallbackTips : List String :=
  ["Visit the main tourist information center",
   "Ask your hotel concierge for local recommendations",
   "Check local event calendars for festivals",
   "Try local restaurants recommended by residents",
   "Explore nearby neighborhoods on foot"]

/-- The fallback block (server.js lines 300-308): append the five
fallback tips when fewer than 5 tips were parsed. -/
def withFallback (tips : List String) : List String :=
  if tips.length < 5 then tips ++ fallbackTips else tips

/-- The tips of a successful run: parse, then fallback augmentation. -/
def recommendTips (raw : String) : List String :=
  withFallback (parseResponse raw)

/-- Result reported to the caller by the explore-destination endpoint. -/
inductive ExploreOutcome where
  | rateLimited
  | invalidInput
  | ok (tips : List String) (raw : String)
  | configurationError
  | backendFailed (msg : String)
deriving DecidableEq

/-- The catch handler (server.js lines 322-333): an error whose message
contains the substring `API key` is reported as the service
configuration error, any other as a failed recommendation request. -/
def classifyError (msg : String) : ExploreOutcome :=
  if jsIncludes msg "API key" then ExploreOutcome.configurationError
  else ExploreOutcome.backendFailed msg

/-- The explore-destination route (server.js lines 280-334) including
its `checkRateLimit` middleware: the middleware runs first (and
increments the counters map on admission), then the destination is
validated (`!destination`: absent or empty string is falsy), then the
pipeline runs. -/
def exploreDestination (apiKey : Option String) (f : FetchResult)
    (ip today : String) (destination : Option String) (m : RLMap) :
    ExploreOutcome × RLMap :=
  let r := checkRateLimit ip today m
  if r.1 = false then (ExploreOutcome.rateLimited, r.2)
  else
    match destination with
    | none => (ExploreOutcome.invalidInput, r.2)
    | some d =>
      if d = "" then (ExploreOutcome.invalidInput, r.2)
      else
        match getRecommendations apiKey f with
        | Except.error msg => (classifyError msg, r.2)
        | Except.ok raw => (ExploreOutcome.ok (recommendTips raw) raw, r.2)

/-! ## Lemmas about the quota tracker -/

theorem mapGet_mapSet_self (m : RLMap) (k : String) (v : Nat) :
    mapGet (mapSet m k v) k = v := by
  induction m with
  | nil => simp [mapGet, mapSet]
  | cons hd tl ih =>
    obtain ⟨k0, v0⟩ := hd
    by_cases h : k0 = k
    · simp [mapGet, mapSet, h]
    · simp [mapGet, mapSet, h, ih]

theorem checkRateLimit_count (ip today : String) (m : RLMap) :
    mapGet (checkRateLimit ip today m).2 (rlKey ip today) =
      if DAILY_LIMIT ≤ mapGet m (rlKey ip today) then mapGet m (rlKey ip today)
      else mapGet m (rlKey ip today) + 1 := by
  unfold checkRateLimit
  by_cases h : DAILY_LIMIT ≤ mapGet m (rlKey ip today)
  · simp [h]
  · simp [h, mapGet_mapSet_self]

theorem checkRateLimit_reject_of_full (ip today : String) (m : RLMap)
    (h : DAILY_LIMIT ≤ mapGet m (rlKey ip today)) :
    checkRateLimit ip today m = (false, m) := by
  unfold checkRateLimit
  simp [h]

theorem checkRateLimit_admit_of_below (ip today : String) (m : RLMap)
    (h : mapGet m (rlKey ip today) < DAILY_LIMIT) :
    checkRateLimit ip today m =
      (true, mapSet m (rlKey ip today) (mapGet m (rlKey ip today) + 1)) := by
  unfold checkRateLimit
  simp [Nat.not_le.mpr h]

theorem admitIter_count_below (ip today : String) (n : Nat) (m : RLMap)
    (h : mapGet m (rlKey ip today) + n ≤ DAILY_LIMIT) :
    mapGet (admitIter ip today n m) (rlKey ip today) =
      mapGet m (rlKey ip today) + n := by
  induction n generalizing m with
  | zero => simp [admitIter]
  | succ k ih =>
    unfold admitIter
    have hb : mapGet m (rlKey ip today) < DAILY_LIMIT := by omega
    rw [checkRateLimit_admit_of_below ip today m hb]
    show mapGet (admitIter ip today k
      (mapSet m (rlKey ip today) (mapGet m (rlKey ip today) + 1))) (rlKey ip today) = _
    have hset := mapGet_mapSet_self m (rlKey ip today) (mapGet m (rlKey ip today) + 1)
    rw [ih _ (by rw [hset]; omega), hset]
    omega

theorem admitTrues_of_full (ip today : String) (n : Nat) (m : RLMap)
    (h : DAILY_LIMIT ≤ mapGet m (rlKey ip today)) :
    admitTrues ip today n m = 0 := by
  induction n generalizing m with
  | zero => rfl
  | succ k ih =>
    unfold admitTrues
    rw [checkRateLimit_reject_of_full ip today m h]
    show 0 + admitTrues ip today k m = 0
    rw [ih m h]

theorem admitTrues_add_count (ip today : String) (n : Nat) (m : RLMap)
    (h : mapGet m (rlKey ip today) ≤ DAILY_LIMIT) :
    admitTrues ip today n m + mapGet m (rlKey ip today) ≤ DAILY_LIMIT := by
  induction n generalizing m with
  | zero => simpa [admitTrues] using h
  | succ k ih =>
    unfold admitTrues
    by_cases hfull : DAILY_LIMIT ≤ mapGet m (rlKey ip today)
    · rw [checkRateLimit_reject_of_full ip today m hfull]
      show 0 + admitTrues ip today k m +
        mapGet m (rlKey ip today) ≤ DAILY_LIMIT
      rw [admitTrues_of_full ip today k m hfull]
      omega
    · push_neg at hfull
      rw [checkRateLimit_admit_of_below ip today m hfull]
      show 1 + admitTrues ip today k
        (mapSet m (rlKey ip today) (mapGet m (rlKey ip today) + 1)) +
        mapGet m (rlKey ip today) ≤ DAILY_LIMIT
      have hset := mapGet_mapSet_self m (rlKey ip today) (mapGet m (rlKey ip today) + 1)
      have h1 := ih (mapSet m (rlKey ip today) (mapGet m (rlKey ip today) + 1))
        (by rw [hset]; omega)
      rw [hset] at h1
      omega

/-- C1: for every caller and day, `checkRateLimit` admits at most 60
requests (whatever the starting map and number of attempts); after 60
admissions from a fresh key the 61st attempt is rejected; and a rejected
attempt leaves the counters map (hence the stored count) unchanged. -/
theorem C1_daily_quota (ip today : String) (n : Nat) (m m0 : RLMap)
    (h0 : mapGet m0 (rlKey ip today) = 0) :
    admitTrues ip today n m ≤ DAILY_LIMIT ∧
    (checkRateLimit ip today (admitIter ip today DAILY_LIMIT m0)).1 = false ∧
    ((checkRateLimit ip today m).1 = false → (checkRateLimit ip today m).2 = m) := by
  refine ⟨?_, ?_, ?_⟩
  · by_cases hle : mapGet m (rlKey ip today) ≤ DAILY_LIMIT
    · have := admitTrues_add_count ip today n m hle
      omega
    · push_neg at hle
      rw [admitTrues_of_full ip today n m (le_of_lt hle)]
      omega
  · have hc : mapGet (admitIter ip today DAILY_LIMIT m0) (rlKey ip today) =
        DAILY_LIMIT := by
      rw [admitIter_count_below ip today DAILY_LIMIT m0 (by rw [h0]; omega)]
      rw [h0]
      omega
    rw [checkRateLimit_reject_of_full ip today _ (le_of_eq hc.symm)]
  · intro hrej
    by_cases hfull : DAILY_LIMIT ≤ mapGet m (rlKey ip today)
    · rw [checkRateLimit_reject_of_full ip today m hfull]
    · push_neg at hfull
      rw [checkRateLimit_admit_of_below ip today m hfull] at hrej
      simp at hrej

/-- Witness for C1 at a concrete caller, day and the empty map. -/
theorem C1_daily_quota_witness :
    mapGet ([] : RLMap) (rlKey "1.2.3.4" "Wed Apr 09 2025") = 0 ∧
    (admitTrues "1.2.3.4" "Wed Apr 09 2025" 61 [] ≤ DAILY_LIMIT ∧
     (checkRateLimit "1.2.3.4" "Wed Apr 09 2025"
       (admitIter "1.2.3.4" "Wed Apr 09 2025" DAILY_LIMIT [])).1 = false ∧
     ((checkRateLimit "1.2.3.4" "Wed Apr 09 2025" []).1 = false →
       (checkRateLimit "1.2.3.4" "Wed Apr 09 2025" []).2 = [])) :=
  ⟨rfl, C1_daily_quota "1.2.3.4" "Wed Apr 09 2025" 61 [] [] rfl⟩

/-! ## Lemmas about the sweep -/

theorem matchesAt_self (l : List Char) : matchesAt l l = true := by
  induction l with
  | nil => rfl
  | cons c cs ih => simp [matchesAt, ih]

theorem containsSub_self (l : List Char) : containsSub l l = true := by
  cases l with
  | nil => rfl
  | cons c cs => simp [containsSub, matchesAt_self]

theorem containsSub_append_right (pat pre : List Char) :
    containsSub pat (pre ++ pat) = true := by
  induction pre with
  | nil => simpa using containsSub_self pat
  | cons c cs ih => simp [containsSub, ih]

theorem jsIncludes_rlKey (ip today : String) :
    jsIncludes (rlKey ip today) today = true := by
  unfold jsIncludes rlKey
  rw [String.data_append, String.data_append]
  exact containsSub_append_right today.data (ip.data ++ "-".data)

/-- C8 counterexample: the sweep keeps a key whose day-component is
stale whenever the current-day string occurs elsewhere in the key (the
source tests `key.includes(today)`, not the day-component). Here the
caller component of the key is the string of the current day while the
day-component is the previous day; the claim says the key must be
removed, but the sweep keeps the map unchanged. -/
theorem C8_counterexample :
    "Tue Apr 08 2025" ≠ "Wed Apr 09 2025" ∧
    sweep "Wed Apr 09 2025" [(rlKey "Wed Apr 09 2025" "Tue Apr 08 2025", 3)] =
      [(rlKey "Wed Apr 09 2025" "Tue Apr 08 2025", 3)] := by
  constructor
  · decide
  · rfl

/-- C8 (amended): a single sweep run removes exactly those stored keys
that do not contain the observed current-day string as a substring.
Consequently no key whose day-component is the current day is removed,
and a stale-day key is removed exactly when the current-day string does
not occur elsewhere in it. -/
theorem C8_sweep_characterization (today : String) (m : RLMap) :
    (∀ e : String × Nat, e ∈ sweep today m ↔
      e ∈ m ∧ jsIncludes e.1 today = true) ∧
    (∀ ip c, (rlKey ip today, c) ∈ m → (rlKey ip today, c) ∈ sweep today m) ∧
    (∀ e : String × Nat, e ∈ m → jsIncludes e.1 today = false →
      e ∉ sweep today m) := by
  refine ⟨?_, ?_, ?_⟩
  · intro e
    unfold sweep
    exact List.mem_filter
  · intro ip c hmem
    unfold sweep
    exact List.mem_filter.mpr ⟨hmem, jsIncludes_rlKey ip today⟩
  · intro e _ hno hmem
    unfold sweep at hmem
    have := (List.mem_filter.mp hmem).2
    rw [hno] at this
    exact Bool.false_ne_true this

/-- Witness for C8 at a concrete day and one-entry map. -/
theorem C8_sweep_characterization_witness :
    ((rlKey "10.0.0.7" "Wed Apr 09 2025", 2) ∈
      ([(rlKey "10.0.0.7" "Wed Apr 09 2025", 2)] : RLMap)) ∧
    ((rlKey "10.0.0.7" "Wed Apr 09 2025", 2) ∈
      sweep "Wed Apr 09 2025" [(rlKey "10.0.0.7" "Wed Apr 09 2025", 2)]) :=
  ⟨List.mem_singleton.mpr rfl,
   (C8_sweep_characterization "Wed Apr 09 2025"
     [(rlKey "10.0.0.7" "Wed Apr 09 2025", 2)]).2.1 "10.0.0.7" 2
     (List.mem_singleton.mpr rfl)⟩

/-! ## Lemmas about the temperature converter -/

theorem jsRound_nearest (x : ℚ) : |(jsRound x : ℚ) - x| ≤ 1 / 2 := by
  rw [abs_le]
  unfold jsRound
  constructor
  · have h := Int.lt_floor_add_one (x + 1 / 2)
    push_cast at h ⊢
    linarith
  · have h := Int.floor_le (x + 1 / 2)
    push_cast at h ⊢
    linarith

/-- C7: with unit C, the converter returns the integer nearest to
(tempF - 32) * 5 / 9 (within one half); with any other unit it returns
the integer nearest to tempF itself (pass-through, no conversion); the
stated concrete vectors hold, and display formats the converted integer
followed by the degree sign and the unit. -/
theorem C7_temperature_conversion (t : ℚ) (u : String) (hu : u ≠ "C") :
    |(convertTemperature t "C" : ℚ) - (t - 32) * 5 / 9| ≤ 1 / 2 ∧
    convertTemperature t u = jsRound t ∧
    |(convertTemperature t u : ℚ) - t| ≤ 1 / 2 ∧
    convertTemperature (986 / 10) "C" = 37 ∧
    convertTemperature (986 / 10) "F" = 99 ∧
    getTemperatureDisplay (986 / 10) "C" = "37°C" ∧
    getTemperatureDisplay (986 / 10) "F" = "99°F" := by
  refine ⟨?_, ?_, ?_, ?_, ?_, ?_, ?_⟩
  · have h : convertTemperature t "C" = jsRound ((t - 32) * 5 / 9) := by
      unfold convertTemperature
      simp
    rw [h]
    exact jsRound_nearest ((t - 32) * 5 / 9)
  · unfold convertTemperature
    simp [hu]
  · have h : convertTemperature t u = jsRound t := by
      unfold convertTemperature
      simp [hu]
    rw [h]
    exact jsRound_nearest t
  · unfold convertTemperature jsRound
    rw [if_pos rfl]
    norm_num
  · unfold convertTemperature jsRound
    rw [if_neg (by decide)]
    norm_num
  · have hC : convertTemperature (986 / 10) "C" = 37 := by
      unfold convertTemperature jsRound
      rw [if_pos rfl]
      norm_num
    unfold getTemperatureDisplay
    rw [hC]
    rfl
  · have hF : convertTemperature (986 / 10) "F" = 99 := by
      unfold convertTemperature jsRound
      rw [if_neg (by decide)]
      norm_num
    unfold getTemperatureDisplay
    rw [hF]
    rfl

/-- Witness for C7 at unit F and temperature 98.6. -/
theorem C7_temperature_conversion_witness :
    ("F" : String) ≠ "C" ∧
    (|(convertTemperature (986 / 10) "C" : ℚ) - (986 / 10 - 32) * 5 / 9| ≤ 1 / 2 ∧
     convertTemperature (986 / 10) "F" = jsRound (986 / 10) ∧
     |(convertTemperature (986 / 10) "F" : ℚ) - 986 / 10| ≤ 1 / 2 ∧
     convertTemperature (986 / 10) "C" = 37 ∧
     convertTemperature (986 / 10) "F" = 99 ∧
     getTemperatureDisplay (986 / 10) "C" = "37°C" ∧
     getTemperatureDisplay (986 / 10) "F" = "99°F") :=
  ⟨by decide, C7_temperature_conversion (986 / 10) "F" (by decide)⟩

/-- C2: the advisor implements exactly the seven ordered first-match-wins
rules with the stated thresholds: bad-weather substrings first
(regardless of the numeric fields), then wind above 25, heat above 95,
cold below 25, the perfect range [70,85] with uv at most 8, the good
range [60,90] with a uv-dependent reason, and otherwise moderate. -/
theorem C2_weather_rules (w : WeatherReading) :
    (isBadWeather w = true →
      getWeatherRecommendations w =
        ⟨"stay-indoors", "Stay indoors", "Poor weather conditions", "#F57C00"⟩) ∧
    (isBadWeather w = false → 25 < w.windspeed →
      getWeatherRecommendations w =
        ⟨"stay-indoors", "Stay indoors", "Very windy", "#F57C00"⟩) ∧
    (isBadWeather w = false → w.windspeed ≤ 25 → 95 < w.temp →
      getWeatherRecommendations w =
        ⟨"limited-outdoor", "Limited outdoor time",
          "Extreme heat - stay hydrated", "#FF5722"⟩) ∧
    (isBadWeather w = false → w.windspeed ≤ 25 → w.temp < 25 →
      getWeatherRecommendations w =
        ⟨"limited-outdoor", "Limited outdoor time",
          "Extreme cold - dress warmly", "#2196F3"⟩) ∧
    (isBadWeather w = false → w.windspeed ≤ 25 → 70 ≤ w.temp → w.temp ≤ 85 →
      w.uvindex ≤ 8 →
      getWeatherRecommendations w =
        ⟨"perfect-outdoor", "Perfect for outdoor activities",
          "Ideal conditions", "#4CAF50"⟩) ∧
    (isBadWeather w = false → w.windspeed ≤ 25 → 60 ≤ w.temp → w.temp ≤ 90 →
      ¬(70 ≤ w.temp ∧ w.temp ≤ 85 ∧ w.uvindex ≤ 8) →
      getWeatherRecommendations w =
        ⟨"good-outdoor", "Great for outdoor activities",
          if 8 < w.uvindex then "Good weather - use sun protection"
          else "Good conditions", "#4CAF50"⟩) ∧
    (isBadWeather w = false → w.windspeed ≤ 25 → 25 ≤ w.temp → w.temp ≤ 95 →
      ¬(70 ≤ w.temp ∧ w.temp ≤ 85 ∧ w.uvindex ≤ 8) →
      ¬(60 ≤ w.temp ∧ w.temp ≤ 90) →
      getWeatherRecommendations w =
        ⟨"moderate-outdoor", "Moderate outdoor conditions",
          "Fair weather", "#FF9800"⟩) := by
  refine ⟨?_, ?_, ?_, ?_, ?_, ?_, ?_⟩
  · intro hb
    unfold getWeatherRecommendations
    rw [hb, if_pos rfl]
  · intro hb hw
    unfold getWeatherRecommendations
    rw [hb, if_neg (by decide), if_pos hw]
  · intro hb hw ht
    unfold getWeatherRecommendations
    rw [hb, if_neg (by decide), if_neg (not_lt.mpr hw), if_pos ht]
  · intro hb hw ht
    unfold getWeatherRecommendations
    rw [hb, if_neg (by decide), if_neg (not_lt.mpr hw),
      if_neg (not_lt.mpr (by linarith)), if_pos ht]
  · intro hb hw h70 h85 huv
    unfold getWeatherRecommendations
    rw [hb, if_neg (by decide), if_neg (not_lt.mpr hw),
      if_neg (not_lt.mpr (by linarith)), if_neg (not_lt.mpr (by linarith)),
      if_pos ⟨h70, h85, not_lt.mpr huv⟩]
  · intro hb hw h60 h90 hno5
    unfold getWeatherRecommendations
    rw [hb, if_neg (by decide), if_neg (not_lt.mpr hw),
      if_neg (not_lt.mpr (by linarith)), if_neg (not_lt.mpr (by linarith)),
      if_neg (by simpa [not_lt] using hno5), if_pos ⟨h60, h90⟩]
  · intro hb hw h25 h95 hno5 hno6
    unfold getWeatherRecommendations
    rw [hb, if_neg (by decide), if_neg (not_lt.mpr hw),
      if_neg (not_lt.mpr h95), if_neg (not_lt.mpr h25),
      if_neg (by simpa [not_lt] using hno5), if_neg hno6]

/-- Witness for C2: the spec example with uvindex 9 falls past rule 5 to
rule 6 and carries the sun-protection reason. -/
theorem C2_weather_rules_witness :
    isBadWeather ⟨75, some "clear", 5, 9⟩ = false ∧
    (5 : ℚ) ≤ 25 ∧ (60 : ℚ) ≤ 75 ∧ (75 : ℚ) ≤ 90 ∧
    ¬(70 ≤ (75 : ℚ) ∧ (75 : ℚ) ≤ 85 ∧ (9 : ℚ) ≤ 8) ∧
    getWeatherRecommendations ⟨75, some "clear", 5, 9⟩ =
      ⟨"good-outdoor", "Great for outdoor activities",
        "Good weather - use sun protection", "#4CAF50"⟩ := by
  have h1 : isBadWeather ⟨75, some "clear", 5, 9⟩ = false := by decide
  have h2 : (5 : ℚ) ≤ 25 := by norm_num
  have h3 : (60 : ℚ) ≤ 75 := by norm_num
  have h4 : (75 : ℚ) ≤ 90 := by norm_num
  have h5 : ¬(70 ≤ (75 : ℚ) ∧ (75 : ℚ) ≤ 85 ∧ (9 : ℚ) ≤ 8) := by norm_num
  have h6 := (C2_weather_rules ⟨75, some "clear", 5, 9⟩).2.2.2.2.2.1 h1 h2 h3 h4 h5
  rw [if_pos (by norm_num : (8 : ℚ) < 9)] at h6
  exact ⟨h1, h2, h3, h4, h5, h6⟩

/-- C9: the advisor is a pure total function: an absent conditions field
behaves exactly as the empty string, and every reading yields exactly
one advice, whose recommendation is one of the five categories. -/
theorem C9_advise_total (t ws uv : ℚ) (c : Option String) :
    getWeatherRecommendations ⟨t, none, ws, uv⟩ =
      getWeatherRecommendations ⟨t, some "", ws, uv⟩ ∧
    (getWeatherRecommendations ⟨t, c, ws, uv⟩).recommendation ∈
      ["stay-indoors", "limited-outdoor", "perfect-outdoor", "good-outdoor",
       "moderate-outdoor"] := by
  constructor
  · rfl
  · unfold getWeatherRecommendations
    split_ifs <;> simp

/-! ## Parser claims -/

/-- The parsing step as worded by the claim: a qualifying line has ONLY
its matched leading marker stripped (the bullet marker when it matched,
otherwise the numbered marker), and the remainder is kept when longer
than 10 characters. -/
def processLineClaim (line : String) : Option String :=
  let l := trimChars line.data
  match stripBullet l with
  | some r => if 10 < r.length then some (String.mk r) else none
  | none =>
    match stripNumber l with
    | some r => if 10 < r.length then some (String.mk r) else none
    | none => none

/-- The parser as worded by the claim (single marker stripped). -/
def parseResponseClaim (raw : String) : List String :=
  ((splitLines raw).filterMap processLineClaim).take 10

/-- The parsing step as amended: the bullet replace runs first and the
numbered replace then runs on its result, so a bulleted line whose
remainder starts with a numbered marker loses both markers. -/
def tipOfLineAmended (line : String) : Option String :=
  let l := trimChars line.data
  match stripBullet l with
  | some r1 =>
    let r2 := (stripNumber r1).getD r1
    if 10 < r2.length then some (String.mk r2) else none
  | none =>
    match stripNumber l with
    | some r => if 10 < r.length then some (String.mk r) else none
    | none => none

theorem processLine_eq_amended (line : String) :
    processLine line = tipOfLineAmended line := by
  unfold processLine tipOfLineAmended
  cases hb : stripBullet (trimChars line.data) with
  | some r1 => simp [hb]
  | none =>
    cases hn : stripNumber (trimChars line.data) with
    | some r => simp [hb, hn]
    | none => simp [hb, hn]

/-- C6 counterexample: on the line `- 1. Visit the old town` the source
strips the bullet marker AND then the numbered marker of the remainder,
while the claim prescribes stripping exactly the matched bullet marker;
the two parsers disagree on this input. -/
theorem C6_counterexample :
    parseResponse "- 1. Visit the old town" = ["Visit the old town"] ∧
    parseResponseClaim "- 1. Visit the old town" = ["1. Visit the old town"] ∧
    parseResponse "- 1. Visit the old town" ≠
      parseResponseClaim "- 1. Visit the old town" := by
  refine ⟨rfl, rfl, ?_⟩
  decide

/-- C6 (amended): the parser returns, in line order, the first at most
10 qualifying lines, where a qualifying line is stripped of its bullet
marker and then of a numbered marker remaining after it (or of just the
numbered marker when no bullet matched) and kept when the remainder
exceeds 10 characters; no qualifying line yields the empty list, and the
concrete vector of the claim holds. -/
theorem C6_parse (raw : String) :
    parseResponse raw = ((splitLines raw).filterMap tipOfLineAmended).take 10 ∧
    (parseResponse raw).length ≤ 10 ∧
    ((∀ line ∈ splitLines raw, processLine line = none) →
      parseResponse raw = []) ∧
    parseResponse "1. Visit the old town\n- See the cathedral\n* ok" =
      ["Visit the old town", "See the cathedral"] := by
  refine ⟨?_, ?_, ?_, rfl⟩
  · unfold parseResponse
    rw [funext processLine_eq_amended]
  · unfold parseResponse
    simp [List.length_take]
  · intro h
    unfold parseResponse
    rw [List.filterMap_eq_nil_iff.mpr h]
    rfl

/-- Witness for C6 on an input with no qualifying line. -/
theorem C6_parse_witness :
    (∀ line ∈ splitLines "no bullets in this text", processLine line = none) ∧
    parseResponse "no bullets in this text" = [] :=
  ⟨by decide, (C6_parse "no bullets in this text").2.2.1 (by decide)⟩

/-- C3: when fewer than 5 tips parse, the five fixed fallback tips are
appended after the parsed tips in their fixed order (the parsed prefix
unchanged); 3 parsed tips hence give exactly 8. -/
theorem C3_fallback (raw : String) (h : (parseResponse raw).length < 5) :
    recommendTips raw = parseResponse raw ++ fallbackTips ∧
    ((parseResponse raw).length = 3 → (recommendTips raw).length = 8) := by
  constructor
  · unfold recommendTips withFallback
    rw [if_pos h]
  · intro h3
    unfold recommendTips withFallback
    rw [if_pos h, List.length_append, h3]
    rfl

/-- Witness for C3 on a response parsing to exactly 3 tips. -/
theorem C3_fallback_witness :
    (parseResponse "- aaaaaaaaaaa\n- bbbbbbbbbbb\n- ccccccccccc").length < 5 ∧
    (recommendTips "- aaaaaaaaaaa\n- bbbbbbbbbbb\n- ccccccccccc" =
      parseResponse "- aaaaaaaaaaa\n- bbbbbbbbbbb\n- ccccccccccc" ++ fallbackTips ∧
     ((parseResponse "- aaaaaaaaaaa\n- bbbbbbbbbbb\n- ccccccccccc").length = 3 →
      (recommendTips "- aaaaaaaaaaa\n- bbbbbbbbbbb\n- ccccccccccc").length = 8)) :=
  ⟨by decide, C3_fallback "- aaaaaaaaaaa\n- bbbbbbbbbbb\n- ccccccccccc" (by decide)⟩

/-- C10: every successful run yields between 5 and 10 tips: the parse
caps at 10 and the fallback block tops shorter lists up past 5. -/
theorem C10_tip_count (raw : String) :
    5 ≤ (recommendTips raw).length ∧ (recommendTips raw).length ≤ 10 := by
  have hp : (parseResponse raw).length ≤ 10 := by
    unfold parseResponse
    simp [List.length_take]
  have hf : fallbackTips.length = 5 := rfl
  unfold recommendTips withFallback
  by_cases h : (parseResponse raw).length < 5
  · rw [if_pos h, List.length_append, hf]
    omega
  · rw [if_neg h]
    omega

/-! ## Error-classification and endpoint claims -/

/-- C4 counterexample: with a credential present, a non-200 backend
response whose error message contains the words API key (as the real
backend sends for an invalid key) is classified by the catch handler as
the configuration error, not as a backend failure — the two error kinds
are distinguished only by substring matching on the message. -/
theorem C4_counterexample :
    keyMissing (some "sk-proj-1234") = false ∧
    getRecommendations (some "sk-proj-1234")
      (FetchResult.failure (some "Incorrect API key provided")) =
      Except.error "Incorrect API key provided" ∧
    classifyError "Incorrect API key provided" =
      ExploreOutcome.configurationError := by
  refine ⟨rfl, ?_, ?_⟩
  · rfl
  · rfl

/-- C4 (amended): a missing (or empty) credential is detected before the
outbound call — the thrown error does not depend on the fetch outcome —
and its message is always classified as the configuration error; a
non-200 backend response is classified as a backend failure if and only
if its propagated message does not contain the substring API key
(otherwise it is also classified as the configuration error). -/
theorem C4_error_kinds (apiKey : Option String) (f g : FetchResult)
    (msg : Option String) (hmiss : keyMissing apiKey = true) :
    getRecommendations apiKey f = Except.error "OpenAI API key not configured" ∧
    getRecommendations apiKey f = getRecommendations apiKey g ∧
    classifyError "OpenAI API key not configured" =
      ExploreOutcome.configurationError ∧
    (∀ k2 : Option String, keyMissing k2 = false →
      getRecommendations k2 (FetchResult.failure msg) =
        Except.error (msg.getD "OpenAI API error")) ∧
    (∀ m2 : String,
      (classifyError m2 = ExploreOutcome.backendFailed m2 ↔
        jsIncludes m2 "API key" = false)) := by
  refine ⟨?_, ?_, ?_, ?_, ?_⟩
  · unfold getRecommendations
    rw [if_pos hmiss]
  · unfold getRecommendations
    rw [if_pos hmiss, if_pos hmiss]
  · rfl
  · intro k2 hk2
    unfold getRecommendations
    rw [if_neg (by rw [hk2]; exact Bool.false_ne_true)]
  · intro m2
    unfold classifyError
    by_cases h : jsIncludes m2 "API key" = true
    · rw [if_pos h, h]
      constructor
      · intro habs
        exact absurd habs (by simp)
      · intro habs
        exact absurd habs (by simp)
    · rw [if_neg h]
      simp [Bool.not_eq_true] at h
      simp [h]

/-- Witness for C4 with an absent credential and a failing fetch. -/
theorem C4_error_kinds_witness :
    keyMissing none = true ∧
    (getRecommendations none (FetchResult.failure (some "boom")) =
      Except.error "OpenAI API key not configured" ∧
     getRecommendations none (FetchResult.failure (some "boom")) =
      getRecommendations none (FetchResult.success "hello") ∧
     classifyError "OpenAI API key not configured" =
      ExploreOutcome.configurationError ∧
     (∀ k2 : Option String, keyMissing k2 = false →
      getRecommendations k2 (FetchResult.failure (some "boom")) =
        Except.error ((some "boom").getD "OpenAI API error")) ∧
     (∀ m2 : String,
      (classifyError m2 = ExploreOutcome.backendFailed m2 ↔
        jsIncludes m2 "API key" = false))) :=
  ⟨rfl, C4_error_kinds none (FetchResult.failure (some "boom"))
    (FetchResult.success "hello") (some "boom") rfl⟩

theorem checkRateLimit_reject_noop (ip today : String) (m : RLMap)
    (h : (checkRateLimit ip today m).1 = false) :
    (checkRateLimit ip today m).2 = m := by
  by_cases hfull : DAILY_LIMIT ≤ mapGet m (rlKey ip today)
  · rw [checkRateLimit_reject_of_full ip today m hfull]
  · push_neg at hfull
    rw [checkRateLimit_admit_of_below ip today m hfull] at h
    simp at h

theorem exploreDestination_none_eval (apiKey : Option String) (f : FetchResult)
    (ip today : String) (m : RLMap) :
    exploreDestination apiKey f ip today none m =
      if DAILY_LIMIT ≤ mapGet m (rlKey ip today)
      then (ExploreOutcome.rateLimited, m)
      else (ExploreOutcome.invalidInput,
        mapSet m (rlKey ip today) (mapGet m (rlKey ip today) + 1)) := by
  unfold exploreDestination
  by_cases h : DAILY_LIMIT ≤ mapGet m (rlKey ip today)
  · rw [checkRateLimit_reject_of_full ip today m h, if_pos h]
    rfl
  · push_neg at h
    rw [checkRateLimit_admit_of_below ip today m h, if_neg (not_le.mpr h)]
    rfl

/-- C5 counterexample: a request with the destination field absent, from
a caller with a fresh quota key, is rejected as invalid input but the
rate-limit middleware has already incremented the stored count from 0 to
1 — the quota counter after the rejected request differs from before. -/
theorem C5_counterexample :
    exploreDestination none (FetchResult.success "x") "1.2.3.4"
      "Wed Apr 09 2025" none [] =
      (ExploreOutcome.invalidInput, [(rlKey "1.2.3.4" "Wed Apr 09 2025", 1)]) ∧
    mapGet [(rlKey "1.2.3.4" "Wed Apr 09 2025", 1)]
        (rlKey "1.2.3.4" "Wed Apr 09 2025") ≠
      mapGet [] (rlKey "1.2.3.4" "Wed Apr 09 2025") := by
  refine ⟨rfl, ?_⟩
  decide

/-- C5 (amended): a request with the destination absent is rejected
before any external call — the outcome and final state are independent
of the credential and the backend — but after the quota side effect: a
caller under the limit gets the invalid-input rejection with its counter
incremented by one, and a caller at the limit gets the rate-limit
rejection (the map unchanged) without the destination ever being
checked. -/
theorem C5_invalid_input (apiKey apiKey2 : Option String) (f g : FetchResult)
    (ip today : String) (m : RLMap) :
    exploreDestination apiKey f ip today none m =
      exploreDestination apiKey2 g ip today none m ∧
    (mapGet m (rlKey ip today) < DAILY_LIMIT →
      (exploreDestination apiKey f ip today none m).1 =
        ExploreOutcome.invalidInput ∧
      mapGet (exploreDestination apiKey f ip today none m).2 (rlKey ip today) =
        mapGet m (rlKey ip today) + 1) ∧
    (DAILY_LIMIT ≤ mapGet m (rlKey ip today) →
      (exploreDestination apiKey f ip today none m).1 =
        ExploreOutcome.rateLimited ∧
      (exploreDestination apiKey f ip today none m).2 = m) := by
  refine ⟨?_, ?_, ?_⟩
  · rw [exploreDestination_none_eval, exploreDestination_none_eval]
  · intro h
    rw [exploreDestination_none_eval, if_neg (not_le.mpr h)]
    exact ⟨rfl, mapGet_mapSet_self ..⟩
  · intro h
    rw [exploreDestination_none_eval, if_pos h]
    exact ⟨rfl, rfl⟩

/-- Witness for C5 at a fresh map (admitted then rejected as invalid)
and at a saturated map (rejected by the rate limit). -/
theorem C5_invalid_input_witness :
    mapGet ([] : RLMap) (rlKey "1.2.3.4" "Wed Apr 09 2025") < DAILY_LIMIT ∧
    ((exploreDestination none (FetchResult.success "x") "1.2.3.4"
        "Wed Apr 09 2025" none []).1 = ExploreOutcome.invalidInput ∧
     mapGet (exploreDestination none (FetchResult.success "x") "1.2.3.4"
        "Wed Apr 09 2025" none []).2 (rlKey "1.2.3.4" "Wed Apr 09 2025") =
       mapGet ([] : RLMap) (rlKey "1.2.3.4" "Wed Apr 09 2025") + 1) ∧
    DAILY_LIMIT ≤ mapGet [(rlKey "1.2.3.4" "Wed Apr 09 2025", 60)]
      (rlKey "1.2.3.4" "Wed Apr 09 2025") ∧
    ((exploreDestination none (FetchResult.success "x") "1.2.3.4"
        "Wed Apr 09 2025" none [(rlKey "1.2.3.4" "Wed Apr 09 2025", 60)]).1 =
       ExploreOutcome.rateLimited ∧
     (exploreDestination none (FetchResult.success "x") "1.2.3.4"
        "Wed Apr 09 2025" none [(rlKey "1.2.3.4" "Wed Apr 09 2025", 60)]).2 =
       [(rlKey "1.2.3.4" "Wed Apr 09 2025", 60)]) :=
  ⟨by decide,
   (C5_invalid_input none none (FetchResult.success "x") (FetchResult.success "x")
     "1.2.3.4" "Wed Apr 09 2025" []).2.1 (by decide),
   by decide,
   (C5_invalid_input none none (FetchResult.success "x") (FetchResult.success "x")
     "1.2.3.4" "Wed Apr 09 2025" [(rlKey "1.2.3.4" "Wed Apr 09 2025", 60)]).2.2
     (by decide)⟩
